import Mathlib

/-!
Verification of the CEM order-validation and approval workflow of the
admcp-media-app repository: a shallow embedding of
`automation/validators.py`, `automation/audit.py`, `automation/cem_agent.py`
and the CEM handlers of `slack/bot.py`, with theorems settling the frozen
claims about them.

Modelling conventions:
* Database tables are lists of row structures; a SQL `fetchone` over a
  WHERE-equality is `List.find?`, `fetchall` is `List.filter` / joins by
  lookup.  Money amounts are `Rat` (Snowflake NUMBER), calendar dates are
  `Int` ordinals (only their linear order is used by the code).
* Python's `try: ... except Exception as e:` around a check's database work
  is modelled by an explicit `err : Option String` parameter: `some e`
  means the try-block raised an exception rendering as `e`, `none` means it
  ran normally.  Fallible Python functions return `Except String`/`Option`.
* `f"..."` interpolation of money/dates is abstracted by `fmtMoney` /
  `toString`; the surrounding literal text is kept verbatim.
-/

/-- JSON values (Python dict/list/str/number/bool/None), used for Snowflake
VARIANT columns and for parsed oracle responses. -/
inductive Json where
  | null : Json
  | bool (b : Bool) : Json
  | num (q : Rat) : Json
  | str (s : String) : Json
  | arr (xs : List Json) : Json
  | obj (fields : List (String × Json)) : Json

/-- Python truthiness of a JSON value (used by `if pricing else 0` and
`json.dumps(x) if x else ...`). -/
def Json.truthy : Json → Bool
  | .null => false
  | .bool b => b
  | .num q => q != 0
  | .str s => s != ""
  | .arr xs => !xs.isEmpty
  | .obj fs => !fs.isEmpty

/-- Row of the media_buys table (the columns the validator reads). -/
structure MediaBuyRow where
  media_buy_id : String
  campaign_name : String
  total_budget : Rat
  currency : String
  flight_start_date : Int
  flight_end_date : Int
  status : String
  created_at : String
  principal_id : String

/-- Row of the principals table. -/
structure PrincipalRow where
  principal_id : String
  name : String
  access_level : String
  is_active : Bool

/-- Row of the packages table; `id` is the surrogate key that
package_formats.package_id references, `package_id` the external one. -/
structure PackageRow where
  id : String
  package_id : String
  media_buy_id : String
  product_id : String
  budget : Rat
  pacing : String
  pricing_strategy : String

/-- Row of the products table; `pricing` is a VARIANT column (JSON or NULL). -/
structure ProductRow where
  product_id : String
  name : String
  is_active : Bool
  pricing : Option Json

/-- Row of the package_formats table. -/
structure PackageFormatRow where
  package_id : String
  format_id : String

/-- The datastore as read by the validator. -/
structure Database where
  media_buys : List MediaBuyRow
  packages : List PackageRow
  products : List ProductRow
  principals : List PrincipalRow
  package_formats : List PackageFormatRow

/-- Result of a single validation check (validators.ValidationResult). -/
structure ValidationResult where
  check_name : String
  passed : Bool
  message : String
  details : Option Json := none

/-- Complete validation result for an order (validators.OrderValidation). -/
structure OrderValidation where
  media_buy_id : String
  all_passed : Bool
  checks : List ValidationResult
  summary : String
  validated_at : String

/-- Abstract stand-in for Python's money formatting (the f-string
interpolation with comma grouping and two decimals); only the surrounding
literal text of messages is claim-relevant. -/
def fmtMoney (q : Rat) : String := toString q

/-- SELECT ... FROM media_buys WHERE media_buy_id = %s, fetchone. -/
def fetchMediaBuy (db : Database) (media_buy_id : String) : Option MediaBuyRow :=
  db.media_buys.find? (fun r => r.media_buy_id == media_buy_id)

/-- SELECT ... FROM media_buys mb JOIN principals p ON mb.principal_id =
p.principal_id WHERE mb.media_buy_id = %s, fetchone. -/
def fetchMediaBuyPrincipal (db : Database) (media_buy_id : String) :
    Option (MediaBuyRow × PrincipalRow) :=
  match fetchMediaBuy db media_buy_id with
  | none => none
  | some mb =>
    match db.principals.find? (fun p => p.principal_id == mb.principal_id) with
    | none => none
    | some p => some (mb, p)

/-- OrderValidator._validate_media_buy_exists. -/
def validate_media_buy_exists (err : Option String) (db : Database)
    (media_buy_id : String) : ValidationResult :=
  match err with
  | some e =>
    { check_name := "media_buy_exists", passed := false,
      message := "Error checking media_buy: " ++ e }
  | none =>
    match fetchMediaBuy db media_buy_id with
    | some row =>
      { check_name := "media_buy_exists", passed := true,
        message := "Media buy '" ++ row.campaign_name ++
          "' found with budget $" ++ fmtMoney row.total_budget,
        details := some (.obj [("campaign_name", .str row.campaign_name),
          ("budget", .num row.total_budget), ("status", .str row.status)]) }
    | none =>
      { check_name := "media_buy_exists", passed := false,
        message := "Media buy '" ++ media_buy_id ++ "' not found" }

/-- Whether an active product with this id exists (the LEFT JOIN condition
pr.product_id = p.product_id AND pr.is_active = true yielding status
'valid'). -/
def productValid (db : Database) (product_id : String) : Bool :=
  (db.products.find? (fun pr => pr.product_id == product_id && pr.is_active)).isSome

/-- OrderValidator._validate_products_exist. -/
def validate_products_exist (err : Option String) (db : Database)
    (media_buy_id : String) : ValidationResult :=
  match err with
  | some e =>
    { check_name := "products_exist", passed := false,
      message := "Error validating products: " ++ e }
  | none =>
    let rows := (db.packages.filter (fun p => p.media_buy_id == media_buy_id)).map
      (fun p => (p.product_id, productValid db p.product_id))
    if rows.isEmpty then
      { check_name := "products_exist", passed := false,
        message := "No packages found for this media buy" }
    else
      let invalid := (rows.filter (fun r => !r.2)).map Prod.fst
      let valid := (rows.filter (fun r => r.2)).map Prod.fst
      if !invalid.isEmpty then
        { check_name := "products_exist", passed := false,
          message := "Invalid products: " ++ String.intercalate ", " invalid,
          details := some (.obj [("invalid", .arr (invalid.map .str)),
            ("valid", .arr (valid.map .str))]) }
      else
        { check_name := "products_exist", passed := true,
          message := "All " ++ toString valid.length ++ " products validated",
          details := some (.obj [("valid", .arr (valid.map .str))]) }

/-- The fixed allow-list of valid format IDs from the AdCP spec
(a Python set literal in the source). -/
def valid_formats : List String :=
  ["display_300x250", "display_728x90", "display_160x600", "display_320x50",
   "video_16x9_15s", "video_16x9_30s", "video_9x16_15s",
   "native_content_feed", "native_in_stream"]

/-- SELECT pf.format_id FROM package_formats pf JOIN packages p ON
pf.package_id = p.id WHERE p.media_buy_id = %s. -/
def joinedFormatIds (db : Database) (media_buy_id : String) : List String :=
  (db.package_formats.filter (fun pf =>
    (db.packages.find? (fun p =>
      p.id == pf.package_id && p.media_buy_id == media_buy_id)).isSome)).map
    (fun pf => pf.format_id)

/-- OrderValidator._validate_formats_exist. -/
def validate_formats_exist (err : Option String) (db : Database)
    (media_buy_id : String) : ValidationResult :=
  match err with
  | some e =>
    { check_name := "formats_exist", passed := false,
      message := "Error validating formats: " ++ e }
  | none =>
    let format_ids := joinedFormatIds db media_buy_id
    if format_ids.isEmpty then
      { check_name := "formats_exist", passed := true,
        message := "No package formats to validate (optional)" }
    else
      let invalid := format_ids.filter (fun f => !valid_formats.contains f)
      if !invalid.isEmpty then
        { check_name := "formats_exist", passed := false,
          message := "Invalid formats: " ++ String.intercalate ", " invalid,
          details := some (.obj [("invalid", .arr (invalid.map .str)),
            ("valid_formats", .arr (valid_formats.map .str))]) }
      else
        { check_name := "formats_exist", passed := true,
          message := "All " ++ toString format_ids.length ++ " formats validated",
          details := some (.obj [("formats", .arr (format_ids.map .str))]) }

/-- OrderValidator._validate_principal_authorized. -/
def validate_principal_authorized (err : Option String) (db : Database)
    (media_buy_id : String) : ValidationResult :=
  match err with
  | some e =>
    { check_name := "principal_authorized", passed := false,
      message := "Error validating principal: " ++ e }
  | none =>
    match fetchMediaBuyPrincipal db media_buy_id with
    | none =>
      { check_name := "principal_authorized", passed := false,
        message := "Principal not found or not linked" }
    | some (_, p) =>
      if !p.is_active then
        { check_name := "principal_authorized", passed := false,
          message := "Principal '" ++ p.name ++ "' is not active",
          details := some (.obj [("principal_id", .str p.principal_id),
            ("is_active", .bool false)]) }
      else
        { check_name := "principal_authorized", passed := true,
          message := "Principal '" ++ p.name ++ "' authorized (access: " ++
            p.access_level ++ ")",
          details := some (.obj [("principal_id", .str p.principal_id),
            ("name", .str p.name), ("access_level", .str p.access_level)]) }

/-- The SQL CASE expression computing max_budget from the principal's
access level. -/
def max_budget_for (access_level : String) : Rat :=
  if access_level == "enterprise" then 1000000
  else if access_level == "preferred" then 500000
  else 100000

/-- The budget comparison of _validate_budget_limits, applied to the fetched
(total_budget, access_level) row. -/
def budget_limits_check (budget : Rat) (access_level : String) : ValidationResult :=
  let max_budget := max_budget_for access_level
  if budget > max_budget then
    { check_name := "budget_limits", passed := false,
      message := "Budget $" ++ fmtMoney budget ++ " exceeds " ++ access_level ++
        " limit of $" ++ fmtMoney max_budget,
      details := some (.obj [("budget", .num budget),
        ("max_budget", .num max_budget), ("access_level", .str access_level)]) }
  else
    { check_name := "budget_limits", passed := true,
      message := "Budget $" ++ fmtMoney budget ++ " within " ++ access_level ++
        " limit ($" ++ fmtMoney max_budget ++ ")",
      details := some (.obj [("budget", .num budget),
        ("max_budget", .num max_budget), ("access_level", .str access_level)]) }

/-- OrderValidator._validate_budget_limits. -/
def validate_budget_limits (err : Option String) (db : Database)
    (media_buy_id : String) : ValidationResult :=
  match err with
  | some e =>
    { check_name := "budget_limits", passed := false,
      message := "Error validating budget: " ++ e }
  | none =>
    match fetchMediaBuyPrincipal db media_buy_id with
    | none =>
      { check_name := "budget_limits", passed := false,
        message := "Could not retrieve budget information" }
    | some (mb, p) => budget_limits_check mb.total_budget p.access_level

/-- The issues list built by _validate_flight_dates for a fetched
(start, end) row against today's date. -/
def flight_issues (start_date end_date today : Int) : List String :=
  (if start_date >= end_date then ["Start date must be before end date"] else []) ++
  (if start_date < today then
    ["Start date " ++ toString start_date ++ " is in the past"] else [])

/-- OrderValidator._validate_flight_dates. -/
def validate_flight_dates (err : Option String) (db : Database)
    (media_buy_id : String) (today : Int) : ValidationResult :=
  match err with
  | some e =>
    { check_name := "flight_dates", passed := false,
      message := "Error validating dates: " ++ e }
  | none =>
    match fetchMediaBuy db media_buy_id with
    | none =>
      { check_name := "flight_dates", passed := false,
        message := "Could not retrieve flight dates" }
    | some row =>
      let start_date := row.flight_start_date
      let end_date := row.flight_end_date
      let issues := flight_issues start_date end_date today
      if !issues.isEmpty then
        { check_name := "flight_dates", passed := false,
          message := String.intercalate "; " issues,
          details := some (.obj [("start", .str (toString start_date)),
            ("end", .str (toString end_date))]) }
      else
        { check_name := "flight_dates", passed := true,
          message := "Flight: " ++ toString start_date ++ " to " ++
            toString end_date,
          details := some (.obj [("start", .str (toString start_date)),
            ("end", .str (toString end_date))]) }

/-- OrderValidator.validate_order.  `errs` injects, per check name, whether
that check's try-block raises; `today`/`now` stand for the wall clock. -/
def validate_order (db : Database) (errs : String → Option String)
    (media_buy_id : String) (today : Int) (now : String) : OrderValidation :=
  let checks := [
    validate_media_buy_exists (errs "media_buy_exists") db media_buy_id,
    validate_products_exist (errs "products_exist") db media_buy_id,
    validate_formats_exist (errs "formats_exist") db media_buy_id,
    validate_principal_authorized (errs "principal_authorized") db media_buy_id,
    validate_budget_limits (errs "budget_limits") db media_buy_id,
    validate_flight_dates (errs "flight_dates") db media_buy_id today]
  let all_passed := checks.all (fun c => c.passed)
  let passed_count := (checks.filter (fun c => c.passed)).length
  let summary :=
    if all_passed then
      "✅ ALL VALIDATIONS PASSED (" ++ toString passed_count ++ "/" ++
        toString checks.length ++ ")"
    else
      "❌ VALIDATION FAILED: " ++ String.intercalate ", "
        ((checks.filter (fun c => !c.passed)).map (fun c => c.check_name))
  { media_buy_id := media_buy_id, all_passed := all_passed, checks := checks,
    summary := summary, validated_at := now }

/-- A value bound into the audit INSERT: SQL NULL, a string, or the
PARSE_JSON of a serialized payload. -/
inductive SqlValue where
  | null : SqlValue
  | str (s : String) : SqlValue
  | json (j : Json) : SqlValue

/-- NULL for a missing optional string argument. -/
def optSql : Option String → SqlValue
  | none => .null
  | some s => .str s

/-- The serialize-then-PARSE_JSON round trip of a payload: json.dumps of the
dict if it is truthy, else the empty-object literal, kept as the parsed
JSON value the VARIANT column stores. -/
def payloadJson : Option Json → Json
  | none => Json.obj []
  | some j => if j.truthy then j else Json.obj []

/-- The column/value pairs of the one row AuditLogger.log INSERTs into
audit_log — exactly the columns named by the INSERT statement. -/
def auditRowColumns (audit_id : String) (principal_id tenant_id : Option String)
    (operation media_buy_id : String) (request_params response_data : Option Json)
    (status timestamp : String) : List (String × SqlValue) :=
  [("id", .str audit_id),
   ("principal_id", optSql principal_id),
   ("tenant_id", optSql tenant_id),
   ("operation", .str operation),
   ("tool_name", .str ("cem_workflow:" ++ media_buy_id)),
   ("request_params", .json (payloadJson request_params)),
   ("response_data", .json (payloadJson response_data)),
   ("status", .str status),
   ("timestamp", .str timestamp)]

/-- Behaviour of the underlying connection during log's INSERT and commit. -/
inductive WriteOutcome where
  | ok : WriteOutcome
  | raisedOnInsert (e : String) : WriteOutcome
  | raisedOnCommit (e : String) : WriteOutcome

/-- AuditLogger.log.  `connAvailable` is whether self.conn is non-None,
`outcome` whether cursor.execute / conn.commit raises; the generated uuid
and the wall-clock timestamp are passed in as `audit_id` / `timestamp`.
Returns the entry id (or None) and the audit_log table contents. -/
def AuditLogger.log (connAvailable : Bool) (outcome : WriteOutcome)
    (audit_id timestamp : String)
    (operation media_buy_id : String)
    (principal_id tenant_id : Option String)
    (request_params response_data : Option Json)
    (status : String) (performed_by : Option String)
    (rows : List (List (String × SqlValue))) :
    Option String × List (List (String × SqlValue)) :=
  if !connAvailable then (none, rows)
  else
    match outcome with
    | .ok => (some audit_id,
        rows ++ [auditRowColumns audit_id principal_id tenant_id operation
          media_buy_id request_params response_data status timestamp])
    | .raisedOnInsert _ => (none, rows)
    | .raisedOnCommit _ => (none, rows)

/-- NULL-able JSON field from an optional string. -/
def optJson : Option String → Json
  | none => .null
  | some s => .str s

/-- AuditLogger.log_approved: the convenience wrapper fixing
operation=cem_approved and the payload shapes, passing
performed_by=approved_by to log. -/
def AuditLogger.log_approved (connAvailable : Bool) (outcome : WriteOutcome)
    (audit_id timestamp : String) (media_buy_id approved_by : String)
    (comments : Option String)
    (rows : List (List (String × SqlValue))) :
    Option String × List (List (String × SqlValue)) :=
  AuditLogger.log connAvailable outcome audit_id timestamp
    "cem_approved" media_buy_id none none
    (some (.obj [("media_buy_id", .str media_buy_id),
                 ("approved_by", .str approved_by)]))
    (some (.obj [("comments", optJson comments),
                 ("new_status", .str "active")]))
    "success" (some approved_by) rows

/-- AuditLogger.log_rejected: the convenience wrapper fixing
operation=cem_rejected, passing performed_by=rejected_by to log. -/
def AuditLogger.log_rejected (connAvailable : Bool) (outcome : WriteOutcome)
    (audit_id timestamp : String) (media_buy_id rejected_by reason : String)
    (rows : List (List (String × SqlValue))) :
    Option String × List (List (String × SqlValue)) :=
  AuditLogger.log connAvailable outcome audit_id timestamp
    "cem_rejected" media_buy_id none none
    (some (.obj [("media_buy_id", .str media_buy_id),
                 ("rejected_by", .str rejected_by)]))
    (some (.obj [("reason", .str reason),
                 ("new_status", .str "rejected")]))
    "success" (some rejected_by) rows

/-- AI recommendation for the CEM (cem_agent.CEMRecommendation). -/
structure CEMRecommendation where
  action : String
  confidence : String
  reason : String
  risk_level : String

/-- Complete summary for CEM review (cem_agent.CEMSummary).  risk_flags is
kept as a raw JSON value: the Python dataclass field is untyped and stores
whatever the parsed response held. -/
structure CEMSummary where
  media_buy_id : String
  order_summary : String
  validation_explanation : String
  risk_flags : Json
  recommendation : CEMRecommendation
  generated_at : String

/-- Python str() of a JSON value as interpolated into f-strings (None
prints as None; nested containers abstracted, not claim-relevant). -/
def Json.pyStr : Json → String
  | .null => "None"
  | .bool true => "True"
  | .bool false => "False"
  | .num q => toString q
  | .str s => s
  | .arr _ => "[...]"
  | .obj _ => "[object]"

/-- dict.get(k, default) rendered as a string: the default only when the
key is absent; a present value goes through str(). -/
def strFieldD (d : List (String × Json)) (k dflt : String) : String :=
  match d.lookup k with
  | none => dflt
  | some v => v.pyStr

/-- dict.get(k, 0) as a number for money formatting (non-numeric present
values abstracted to the default; the formatting itself is not
claim-relevant). -/
def numFieldD (d : List (String × Json)) (k : String) (dflt : Rat) : Rat :=
  match d.lookup k with
  | some (.num q) => q
  | _ => dflt

/-- dict.get(k, default) keeping the raw JSON value. -/
def jsonFieldD (d : List (String × Json)) (k : String) (dflt : Json) : Json :=
  match d.lookup k with
  | none => dflt
  | some v => v

/-- The deterministic safe fallback CEMSummary built in the
json.JSONDecodeError handler of generate_summary. -/
def fallback_summary (order_details validation_result : List (String × Json))
    (now : String) : CEMSummary :=
  { media_buy_id := strFieldD order_details "media_buy_id" "unknown",
    order_summary := "Order for " ++ strFieldD order_details "campaign_name" "None"
      ++ " - $" ++ fmtMoney (numFieldD order_details "total_budget" 0),
    validation_explanation := strFieldD validation_result "summary" "Validation completed",
    risk_flags := .arr [.str "AI summarization failed - manual review required"],
    recommendation :=
      { action := "review", confidence := "low",
        reason := "AI summarization failed, requires manual review",
        risk_level := "medium" },
    generated_at := now }

/-- Outcome of the oracle call together with the json.loads of its
fence-stripped response text: `raised` models an exception from
client.messages.create itself (network error etc.), `responded none` a
response whose text fails to parse (json.JSONDecodeError),
`responded (some j)` a successful parse yielding `j`. -/
inductive OracleOutcome where
  | raised (e : String) : OracleOutcome
  | responded (parsed : Option Json) : OracleOutcome

/-- CEMAgent.generate_summary.  The try-block's work after a successful
parse (result.get / rec_data.get) raises AttributeError on non-dict values,
which the second except clause re-raises; json.JSONDecodeError alone takes
the fallback path. -/
def generate_summary (order_details validation_result : List (String × Json))
    (outcome : OracleOutcome) (now : String) : Except String CEMSummary :=
  match outcome with
  | .raised e => .error e
  | .responded none => .ok (fallback_summary order_details validation_result now)
  | .responded (some parsed) =>
    match parsed with
    | .obj result =>
      match jsonFieldD result "recommendation" (.obj []) with
      | .obj rec_data =>
        .ok { media_buy_id := strFieldD order_details "media_buy_id" "unknown",
              order_summary := strFieldD result "order_summary" "No summary generated",
              validation_explanation := strFieldD result "validation_explanation" "No explanation",
              risk_flags := jsonFieldD result "risk_flags" (.arr []),
              recommendation :=
                { action := strFieldD rec_data "action" "review",
                  confidence := strFieldD rec_data "confidence" "medium",
                  reason := strFieldD rec_data "reason" "Unable to determine",
                  risk_level := strFieldD rec_data "risk_level" "medium" },
              generated_at := now }
      | _ => .error "AttributeError: recommendation value has no attribute get"
    | _ => .error "AttributeError: parsed response has no attribute get"

/-- One observable side effect of a CEM action handler, listed in program
order. -/
inductive WorkflowEvent where
  | auditLog (operation media_buy_id performed_by detail : String) (succeeded : Bool)
  | statusUpdate (media_buy_id new_status : String) (succeeded : Bool)
  | cardRender (media_buy_id text : String)

/-- handle_cem_approve's effect trace: audit.log_approved first, then the
media_buys status UPDATE (whose failure is caught and logged), then the
card re-render. -/
def handle_cem_approve (media_buy_id user_name : String)
    (auditOk updateOk : Bool) : List WorkflowEvent :=
  [.auditLog "cem_approved" media_buy_id user_name "Approved via Slack" auditOk,
   .statusUpdate media_buy_id "active" updateOk,
   .cardRender media_buy_id ("Order " ++ media_buy_id ++ " approved")]

/-- handle_cem_reject_submit's effect trace: audit.log_rejected first, then
the status UPDATE to rejected, then the card re-render. -/
def handle_cem_reject_submit (media_buy_id user_name reason : String)
    (auditOk updateOk : Bool) : List WorkflowEvent :=
  [.auditLog "cem_rejected" media_buy_id user_name reason auditOk,
   .statusUpdate media_buy_id "rejected" updateOk,
   .cardRender media_buy_id ("Order " ++ media_buy_id ++ " rejected")]

/-- The persisted state a handler's events touch: the audit entries
(operation, order id, actor) and the order's status column. -/
structure WorkflowState where
  audit_entries : List (String × String × String)
  order_status : String

/-- Semantics of one workflow event on the persisted state: a successful
audit write appends (there is no event that removes an audit entry — the
table is append-only), a successful status update overwrites the status, a
failed attempt or a card render changes nothing. -/
def applyEvent (s : WorkflowState) : WorkflowEvent → WorkflowState
  | .auditLog op id actor _ true =>
      { s with audit_entries := s.audit_entries ++ [(op, id, actor)] }
  | .auditLog _ _ _ _ false => s
  | .statusUpdate _ st true => { s with order_status := st }
  | .statusUpdate _ _ false => s
  | .cardRender _ _ => s

/-- Run a handler's event trace on a state, in order. -/
def runEvents (s : WorkflowState) (es : List WorkflowEvent) : WorkflowState :=
  es.foldl applyEvent s

/-- One element of the packages list of get_order_details. -/
structure PackageDetails where
  product_id : String
  product_name : String
  budget : Rat
  pacing : String
  pricing_strategy : String
  cpm : Rat
  estimated_impressions : Int
deriving DecidableEq

/-- The dict returned by OrderValidator.get_order_details. -/
structure OrderDetails where
  media_buy_id : String
  campaign_name : String
  total_budget : Rat
  currency : String
  flight_start_date : String
  flight_end_date : String
  status : String
  created_at : String
  principal_name : String
  access_level : String
  packages : List PackageDetails
  total_impressions : Int
deriving DecidableEq

/-- Python int() truncation toward zero of a rational. -/
def pyTrunc (q : Rat) : Int := q.num.tdiv (q.den : Int)

/-- cpm = pricing.get('value', 0) if pricing else 0, with the Python errors
this extraction can raise under the whole-function except clause: .get on a
truthy non-dict raises AttributeError, and a non-numeric value raises
TypeError at the later cpm > 0 comparison.  A boolean value compares as
0 or 1 in Python. -/
def getCpm : Option Json → Except String Rat
  | none => .ok 0
  | some p =>
    if !p.truthy then .ok 0
    else match p with
      | .obj fields =>
        match fields.lookup "value" with
        | none => .ok 0
        | some (.num q) => .ok q
        | some (.bool b) => .ok (if b then 1 else 0)
        | some _ => .error "TypeError: cpm value not comparable with int"
      | _ => .error "AttributeError: pricing has no attribute get"

/-- The body of get_order_details' loop over pkg_rows, for one package row
and its LEFT-JOINed product (None when the product is missing). -/
def buildPackage (pkg : PackageRow) (pr : Option ProductRow) :
    Except String PackageDetails := do
  let pricing := match pr with | none => none | some w => w.pricing
  let cpm ← getCpm pricing
  let impressions : Int :=
    if cpm > 0 then pyTrunc (pkg.budget / (cpm / 1000)) else 0
  .ok { product_id := pkg.product_id,
        product_name :=
          match pr with
          | some w => if w.name == "" then pkg.product_id else w.name
          | none => pkg.product_id,
        budget := pkg.budget, pacing := pkg.pacing,
        pricing_strategy := pkg.pricing_strategy,
        cpm := cpm, estimated_impressions := impressions }

/-- SELECT ... FROM products WHERE product_id = ... (the LEFT JOIN of
get_order_details, which does not require is_active). -/
def lookupProduct (db : Database) (product_id : String) : Option ProductRow :=
  db.products.find? (fun pr => pr.product_id == product_id)

/-- The for-loop of get_order_details accumulating the packages list; the
first exception aborts the loop (and the whole function). -/
def buildPackages (db : Database) : List PackageRow → Except String (List PackageDetails)
  | [] => .ok []
  | w :: rest => do
    let d ← buildPackage w (lookupProduct db w.product_id)
    let ds ← buildPackages db rest
    .ok (d :: ds)

/-- OrderValidator.get_order_details: media_buy joined with principal, the
package list with estimated impressions, and the total; any exception in
the body (e.g. a TypeError from a malformed pricing value) is caught by the
whole-function except clause and yields None. -/
def get_order_details (db : Database) (media_buy_id : String) :
    Option OrderDetails :=
  match fetchMediaBuyPrincipal db media_buy_id with
  | none => none
  | some (mb, p) =>
    let pkg_rows := db.packages.filter (fun w => w.media_buy_id == media_buy_id)
    match buildPackages db pkg_rows with
    | .error _ => none
    | .ok packages =>
      some { media_buy_id := mb.media_buy_id, campaign_name := mb.campaign_name,
             total_budget := mb.total_budget, currency := mb.currency,
             flight_start_date := toString mb.flight_start_date,
             flight_end_date := toString mb.flight_end_date,
             status := mb.status, created_at := mb.created_at,
             principal_name := p.name, access_level := p.access_level,
             packages := packages,
             total_impressions :=
               (packages.map (fun d => d.estimated_impressions)).sum }

/-- A media buy used to exercise the definitions on concrete inputs:
standard-level principal, past start date. -/
def mb1 : MediaBuyRow :=
  { media_buy_id := "MB-001", campaign_name := "Spring Push",
    total_budget := 120000, currency := "USD", flight_start_date := 50,
    flight_end_date := 300, status := "pending_cem_approval",
    created_at := "2026-01-02", principal_id := "P-STD" }

/-- A concrete datastore used by the witness theorems. -/
def sampleDb : Database :=
  { media_buys := [mb1],
    packages := [{ id := "1", package_id := "PKG-1", media_buy_id := "MB-001",
                   product_id := "PR-1", budget := 500, pacing := "even",
                   pricing_strategy := "cpm" }],
    products := [{ product_id := "PR-1", name := "Premium Video", is_active := true,
                   pricing := some (.obj [("value", .num 5)]) }],
    principals := [{ principal_id := "P-STD", name := "Acme", access_level := "standard",
                     is_active := true }],
    package_formats := [{ package_id := "1", format_id := "display_999x999" },
                        { package_id := "1", format_id := "display_300x250" }] }

/-- A concrete datastore for the impressions-guard witness: one product
with no pricing at all, one with an explicit CPM of 0. -/
def dbC10 : Database :=
  { media_buys := [{ media_buy_id := "MB-X", campaign_name := "Guard Campaign",
                     total_budget := 1000, currency := "USD", flight_start_date := 10,
                     flight_end_date := 20, status := "pending", created_at := "2026-01-01",
                     principal_id := "P-STD" }],
    packages := [{ id := "11", package_id := "PKG-A", media_buy_id := "MB-X",
                   product_id := "PR-N", budget := 500, pacing := "even",
                   pricing_strategy := "cpm" },
                 { id := "13", package_id := "PKG-C", media_buy_id := "MB-X",
                   product_id := "PR-0", budget := 700, pacing := "even",
                   pricing_strategy := "cpm" }],
    products := [{ product_id := "PR-N", name := "No Pricing Product", is_active := true,
                   pricing := none },
                 { product_id := "PR-0", name := "CPM Zero", is_active := true,
                   pricing := some (.obj [("value", .num 0)]) }],
    principals := [{ principal_id := "P-STD", name := "Acme", access_level := "standard",
                     is_active := true }],
    package_formats := [] }

/-- The package details dbC10 yields for the product with no pricing:
CPM 0, zero estimated impressions. -/
def pdNoPricing : PackageDetails :=
  { product_id := "PR-N", product_name := "No Pricing Product", budget := 500,
    pacing := "even", pricing_strategy := "cpm", cpm := 0,
    estimated_impressions := 0 }

/-- The package details dbC10 yields for the product whose pricing value
is 0: zero estimated impressions again. -/
def pdCpmZero : PackageDetails :=
  { product_id := "PR-0", product_name := "CPM Zero", budget := 700,
    pacing := "even", pricing_strategy := "cpm", cpm := 0,
    estimated_impressions := 0 }

/-- The order details dbC10 yields, written out for the witness. -/
def detailsC10 : OrderDetails :=
  { media_buy_id := "MB-X", campaign_name := "Guard Campaign", total_budget := 1000,
    currency := "USD", flight_start_date := "10", flight_end_date := "20",
    status := "pending", created_at := "2026-01-01", principal_name := "Acme",
    access_level := "standard",
    packages := [pdNoPricing, pdCpmZero],
    total_impressions := 0 }

/-- C3: the budget_limits ceiling is a pure three-tier function of the
principal's access level (enterprise 1000000, preferred 500000, any other
level 100000, the tiers strictly ordered), the check passes exactly when
the total budget is at most the ceiling, and at the boundary
budget = ceiling passes while ceiling + 0.01 fails. -/
theorem budget_limits_ceiling_and_boundary :
    (∀ (budget : Rat) (access_level : String),
      (budget_limits_check budget access_level).passed = true ↔
        budget ≤ max_budget_for access_level) ∧
    max_budget_for "enterprise" = 1000000 ∧
    max_budget_for "preferred" = 500000 ∧
    (∀ access_level : String, access_level ≠ "enterprise" →
      access_level ≠ "preferred" → max_budget_for access_level = 100000) ∧
    max_budget_for "preferred" < max_budget_for "enterprise" ∧
    max_budget_for "standard" < max_budget_for "preferred" ∧
    (budget_limits_check 1000000 "enterprise").passed = true ∧
    (budget_limits_check (1000000 + 1 / 100) "enterprise").passed = false := by
  refine ⟨?_, by simp [max_budget_for], by simp [max_budget_for], ?_,
    by simp [max_budget_for]; norm_num, by simp [max_budget_for]; norm_num,
    by simp [budget_limits_check, max_budget_for],
    by norm_num [budget_limits_check, max_budget_for]⟩
  · intro budget lvl
    by_cases h : budget > max_budget_for lvl
    · simp [budget_limits_check, h, not_le.mpr h]
    · simp [budget_limits_check, h, not_lt.mp h]
  · intro lvl h1 h2
    simp [max_budget_for, h1, h2]

/-- C3 witness: the theorem applied at a concrete access level other than
enterprise and preferred, which gets the lowest ceiling. -/
theorem budget_limits_ceiling_witness : max_budget_for "custom" = 100000 :=
  budget_limits_ceiling_and_boundary.2.2.2.1 "custom" (by decide) (by decide)

/-- C4: validate_order's all_passed is the logical AND of the six check
results: it equals the Boolean conjunction of the six individual passed
flags (so flipping any one of them to false makes it false), and it is
true exactly when every check in the list passed. -/
theorem validate_order_all_passed_is_and :
    ∀ (db : Database) (errs : String → Option String) (media_buy_id : String)
      (today : Int) (now : String),
      ((validate_order db errs media_buy_id today now).all_passed =
        ((validate_media_buy_exists (errs "media_buy_exists") db media_buy_id).passed &&
         (validate_products_exist (errs "products_exist") db media_buy_id).passed &&
         (validate_formats_exist (errs "formats_exist") db media_buy_id).passed &&
         (validate_principal_authorized (errs "principal_authorized") db media_buy_id).passed &&
         (validate_budget_limits (errs "budget_limits") db media_buy_id).passed &&
         (validate_flight_dates (errs "flight_dates") db media_buy_id today).passed)) ∧
      ((validate_order db errs media_buy_id today now).all_passed = true ↔
        ∀ c ∈ (validate_order db errs media_buy_id today now).checks, c.passed = true) := by
  intro db errs id today now
  constructor
  · simp only [validate_order, List.all_cons, List.all_nil, Bool.and_true, Bool.and_assoc]
  · simp [validate_order, List.all_eq_true]

/-- C5: for an order whose flight dates are retrievable, the flight_dates
check passes exactly when the start date strictly precedes the end date and
the start date is not in the past; a past start date makes the check fail,
its message being the semicolon join of the issues list, which then
contains the past-date reason. -/
theorem flight_dates_pass_iff :
    ∀ (db : Database) (media_buy_id : String) (today : Int) (row : MediaBuyRow),
      fetchMediaBuy db media_buy_id = some row →
      ((validate_flight_dates none db media_buy_id today).passed = true ↔
        (row.flight_start_date < row.flight_end_date ∧
         today ≤ row.flight_start_date)) ∧
      (row.flight_start_date < today →
        (validate_flight_dates none db media_buy_id today).passed = false ∧
        (validate_flight_dates none db media_buy_id today).message =
          String.intercalate "; "
            (flight_issues row.flight_start_date row.flight_end_date today) ∧
        ("Start date " ++ toString row.flight_start_date ++ " is in the past") ∈
          flight_issues row.flight_start_date row.flight_end_date today) := by
  intro db id today row h
  constructor
  · by_cases h1 : row.flight_start_date ≥ row.flight_end_date <;>
      by_cases h2 : row.flight_start_date < today <;>
        simp [validate_flight_dates, h, flight_issues, h1, h2] <;> omega
  · intro hpast
    by_cases h1 : row.flight_start_date ≥ row.flight_end_date <;>
      simp [validate_flight_dates, h, flight_issues, h1, hpast]

/-- C5 witness: the theorem applied to the concrete datastore, whose order
MB-001 has start date 50, in the past relative to day 200: the check
fails. -/
theorem flight_dates_pass_iff_witness :
    fetchMediaBuy sampleDb "MB-001" = some mb1 ∧
    mb1.flight_start_date < 200 ∧
    (validate_flight_dates none sampleDb "MB-001" 200).passed = false :=
  ⟨rfl, by decide,
    ((flight_dates_pass_iff sampleDb "MB-001" 200 mb1 rfl).2 (by decide)).1⟩

/-- C6: with no format IDs attached, the formats_exist check passes; and
whenever some attached format ID is outside the fixed allow-list, the check
fails and its message names exactly the unrecognized IDs: it is built from
precisely the sublist of attached IDs not in the allow-list. -/
theorem formats_exist_names_invalid :
    ∀ (db : Database) (media_buy_id : String),
      (joinedFormatIds db media_buy_id = [] →
        (validate_formats_exist none db media_buy_id).passed = true) ∧
      (∀ f ∈ joinedFormatIds db media_buy_id, f ∉ valid_formats →
        (validate_formats_exist none db media_buy_id).passed = false ∧
        (validate_formats_exist none db media_buy_id).message =
          "Invalid formats: " ++ String.intercalate ", "
            ((joinedFormatIds db media_buy_id).filter
              (fun g => !valid_formats.contains g)) ∧
        (∀ g, g ∈ (joinedFormatIds db media_buy_id).filter
              (fun g => !valid_formats.contains g) ↔
            (g ∈ joinedFormatIds db media_buy_id ∧ g ∉ valid_formats))) := by
  intro db id
  constructor
  · intro hnil
    simp [validate_formats_exist, hnil]
  · intro f hf hnot
    have hne : joinedFormatIds db id ≠ [] := List.ne_nil_of_mem hf
    have hex : ∃ x ∈ joinedFormatIds db id, x ∉ valid_formats := ⟨f, hf, hnot⟩
    refine ⟨?_, ?_, ?_⟩
    · simp [validate_formats_exist, hne, hex]
    · simp [validate_formats_exist, hne, hex]
    · intro g
      rw [List.mem_filter]
      simp [List.elem_iff]

/-- C6 witness: the theorem applied to the concrete datastore, where order
MB-001 carries the unknown format display_999x999 alongside the valid
display_300x250: the check fails and its message names only the unknown
one. -/
theorem formats_exist_names_invalid_witness :
    "display_999x999" ∈ joinedFormatIds sampleDb "MB-001" ∧
    "display_999x999" ∉ valid_formats ∧
    (validate_formats_exist none sampleDb "MB-001").passed = false ∧
    (validate_formats_exist none sampleDb "MB-001").message =
      "Invalid formats: " ++ String.intercalate ", "
        ((joinedFormatIds sampleDb "MB-001").filter
          (fun g => !valid_formats.contains g)) :=
  ⟨by decide, by decide,
    ((formats_exist_names_invalid sampleDb "MB-001").2 "display_999x999"
      (by decide) (by decide)).1,
    ((formats_exist_names_invalid sampleDb "MB-001").2 "display_999x999"
      (by decide) (by decide)).2.1⟩

/-- The check_name of _validate_media_buy_exists is the same on every path. -/
theorem media_buy_exists_check_name (err : Option String) (db : Database)
    (id : String) :
    (validate_media_buy_exists err db id).check_name = "media_buy_exists" := by
  cases err with
  | some e => rfl
  | none => cases h : fetchMediaBuy db id <;> simp [validate_media_buy_exists, h]

/-- The check_name of _validate_products_exist is the same on every path. -/
theorem products_exist_check_name (err : Option String) (db : Database)
    (id : String) :
    (validate_products_exist err db id).check_name = "products_exist" := by
  cases err with
  | some e => rfl
  | none =>
    unfold validate_products_exist
    dsimp only
    repeat' split
    all_goals rfl

/-- The check_name of _validate_formats_exist is the same on every path. -/
theorem formats_exist_check_name (err : Option String) (db : Database)
    (id : String) :
    (validate_formats_exist err db id).check_name = "formats_exist" := by
  cases err with
  | some e => rfl
  | none =>
    unfold validate_formats_exist
    dsimp only
    repeat' split
    all_goals rfl

/-- The check_name of _validate_principal_authorized is the same on every
path. -/
theorem principal_authorized_check_name (err : Option String) (db : Database)
    (id : String) :
    (validate_principal_authorized err db id).check_name = "principal_authorized" := by
  cases err with
  | some e => rfl
  | none =>
    unfold validate_principal_authorized
    dsimp only
    repeat' split
    all_goals rfl

/-- The check_name of _validate_budget_limits is the same on every path. -/
theorem budget_limits_check_name (err : Option String) (db : Database)
    (id : String) :
    (validate_budget_limits err db id).check_name = "budget_limits" := by
  cases err with
  | some e => rfl
  | none =>
    unfold validate_budget_limits budget_limits_check
    dsimp only
    repeat' split
    all_goals rfl

/-- The check_name of _validate_flight_dates is the same on every path. -/
theorem flight_dates_check_name (err : Option String) (db : Database)
    (id : String) (today : Int) :
    (validate_flight_dates err db id today).check_name = "flight_dates" := by
  cases err with
  | some e => rfl
  | none =>
    unfold validate_flight_dates
    dsimp only
    repeat' split
    all_goals rfl

/-- C7: validate_order is total by construction and runs all six checks on
every call: the returned list always holds exactly the six named checks in
order; an unexpected runtime error injected into any single check is caught
locally and converted into a failed ValidationResult carrying the error
text in its message; and each entry of the list depends only on its own
check's error injection, so one check's exception does not prevent or
change the others. -/
theorem validate_order_runs_all_six_isolated :
    ∀ (db : Database) (errs : String → Option String) (media_buy_id : String)
      (today : Int) (now : String),
      ((validate_order db errs media_buy_id today now).checks.map
          (fun c => c.check_name) =
        ["media_buy_exists", "products_exist", "formats_exist",
         "principal_authorized", "budget_limits", "flight_dates"]) ∧
      (∀ e, errs "media_buy_exists" = some e →
        (validate_order db errs media_buy_id today now).checks[0]? =
          some { check_name := "media_buy_exists", passed := false,
                 message := "Error checking media_buy: " ++ e }) ∧
      (∀ e, errs "products_exist" = some e →
        (validate_order db errs media_buy_id today now).checks[1]? =
          some { check_name := "products_exist", passed := false,
                 message := "Error validating products: " ++ e }) ∧
      (∀ e, errs "formats_exist" = some e →
        (validate_order db errs media_buy_id today now).checks[2]? =
          some { check_name := "formats_exist", passed := false,
                 message := "Error validating formats: " ++ e }) ∧
      (∀ e, errs "principal_authorized" = some e →
        (validate_order db errs media_buy_id today now).checks[3]? =
          some { check_name := "principal_authorized", passed := false,
                 message := "Error validating principal: " ++ e }) ∧
      (∀ e, errs "budget_limits" = some e →
        (validate_order db errs media_buy_id today now).checks[4]? =
          some { check_name := "budget_limits", passed := false,
                 message := "Error validating budget: " ++ e }) ∧
      (∀ e, errs "flight_dates" = some e →
        (validate_order db errs media_buy_id today now).checks[5]? =
          some { check_name := "flight_dates", passed := false,
                 message := "Error validating dates: " ++ e }) ∧
      (∀ errs' : String → Option String,
        errs "media_buy_exists" = errs' "media_buy_exists" →
        (validate_order db errs media_buy_id today now).checks[0]? =
        (validate_order db errs' media_buy_id today now).checks[0]?) ∧
      (∀ errs' : String → Option String,
        errs "products_exist" = errs' "products_exist" →
        (validate_order db errs media_buy_id today now).checks[1]? =
        (validate_order db errs' media_buy_id today now).checks[1]?) ∧
      (∀ errs' : String → Option String,
        errs "formats_exist" = errs' "formats_exist" →
        (validate_order db errs media_buy_id today now).checks[2]? =
        (validate_order db errs' media_buy_id today now).checks[2]?) ∧
      (∀ errs' : String → Option String,
        errs "principal_authorized" = errs' "principal_authorized" →
        (validate_order db errs media_buy_id today now).checks[3]? =
        (validate_order db errs' media_buy_id today now).checks[3]?) ∧
      (∀ errs' : String → Option String,
        errs "budget_limits" = errs' "budget_limits" →
        (validate_order db errs media_buy_id today now).checks[4]? =
        (validate_order db errs' media_buy_id today now).checks[4]?) ∧
      (∀ errs' : String → Option String,
        errs "flight_dates" = errs' "flight_dates" →
        (validate_order db errs media_buy_id today now).checks[5]? =
        (validate_order db errs' media_buy_id today now).checks[5]?) := by
  intro db errs id today now
  refine ⟨?_, ?_, ?_, ?_, ?_, ?_, ?_, ?_, ?_, ?_, ?_, ?_, ?_⟩
  · simp [validate_order, media_buy_exists_check_name, products_exist_check_name,
      formats_exist_check_name, principal_authorized_check_name,
      budget_limits_check_name, flight_dates_check_name]
  · intro e h; simp [validate_order, h, validate_media_buy_exists]
  · intro e h; simp [validate_order, h, validate_products_exist]
  · intro e h; simp [validate_order, h, validate_formats_exist]
  · intro e h; simp [validate_order, h, validate_principal_authorized]
  · intro e h; simp [validate_order, h, validate_budget_limits]
  · intro e h; simp [validate_order, h, validate_flight_dates]
  · intro errs' h; simp only [validate_order]; simp; rw [h]
  · intro errs' h; simp only [validate_order]; simp; rw [h]
  · intro errs' h; simp only [validate_order]; simp; rw [h]
  · intro errs' h; simp only [validate_order]; simp; rw [h]
  · intro errs' h; simp only [validate_order]; simp; rw [h]
  · intro errs' h; simp only [validate_order]; simp; rw [h]

/-- C7 witness: the theorem applied to the concrete datastore with an
exception injected into the products_exist check: that check alone becomes
a failed result carrying the error text. -/
theorem validate_order_runs_all_six_witness :
    (fun n => if n == "products_exist" then some "boom" else none) "products_exist" =
      some "boom" ∧
    (validate_order sampleDb
        (fun n => if n == "products_exist" then some "boom" else none)
        "MB-001" 200 "T").checks[1]? =
      some { check_name := "products_exist", passed := false,
             message := "Error validating products: boom" } :=
  ⟨rfl,
    (validate_order_runs_all_six_isolated sampleDb
      (fun n => if n == "products_exist" then some "boom" else none)
      "MB-001" 200 "T").2.2.1 "boom" rfl⟩

/-- C1 counterexample: a network-type oracle failure (an exception from the
API call itself rather than a JSON parse failure) is re-raised by
generate_summary — the caller receives the raw error, not the safe fallback
summary. -/
theorem generate_summary_network_error_propagates :
    generate_summary [] [] (.raised "ConnectionError: network unreachable")
        "2026-06-01 00:00:00 UTC" =
      .error "ConnectionError: network unreachable" ∧
    generate_summary [] [] (.raised "ConnectionError: network unreachable")
        "2026-06-01 00:00:00 UTC" ≠
      .ok (fallback_summary [] [] "2026-06-01 00:00:00 UTC") :=
  ⟨rfl, fun h => Except.noConfusion h⟩

/-- C1 amended: when json.loads of the oracle's response text fails,
generate_summary returns the deterministic safe fallback — action review,
confidence low, risk_level medium, with the risk flag that AI summarization
failed and manual review is required; but an exception raised by the oracle
call itself (e.g. a network error) is re-raised to the caller, not
converted to the fallback. -/
theorem generate_summary_parse_failure_fallback :
    ∀ (order_details validation_result : List (String × Json)) (now e : String),
      generate_summary order_details validation_result (.responded none) now =
        .ok (fallback_summary order_details validation_result now) ∧
      (fallback_summary order_details validation_result now).recommendation.action =
        "review" ∧
      (fallback_summary order_details validation_result now).recommendation.confidence =
        "low" ∧
      (fallback_summary order_details validation_result now).recommendation.risk_level =
        "medium" ∧
      (fallback_summary order_details validation_result now).risk_flags =
        .arr [.str "AI summarization failed - manual review required"] ∧
      generate_summary order_details validation_result (.raised e) now = .error e :=
  fun _ _ _ _ => ⟨rfl, rfl, rfl, rfl, rfl, rfl⟩

/-- C2 counterexample: a concrete approve action. log_approved passes
performed_by=alice down to log, yet the one row INSERTed carries exactly
the nine columns of the INSERT statement — none of them is
performed_by. -/
theorem log_approved_drops_performed_by :
    ((AuditLogger.log_approved true .ok "A-1" "2026-06-01T00:00:00Z"
        "MB-001" "alice" (some "Approved via Slack") []).2.map
      (fun r => r.map Prod.fst)) =
      [["id", "principal_id", "tenant_id", "operation", "tool_name",
        "request_params", "response_data", "status", "timestamp"]] ∧
    (((AuditLogger.log_approved true .ok "A-1" "2026-06-01T00:00:00Z"
        "MB-001" "alice" (some "Approved via Slack") []).2.headD []).lookup
      "performed_by") = none :=
  ⟨rfl, rfl⟩

/-- C2 amended: for every approve action, log_approved writes one audit row
whose columns are exactly those named by the INSERT statement — there is no
performed_by column; the approving user is recorded only inside the
request_params payload under approved_by, and the performed_by argument of
log has no effect at all on the stored row. -/
theorem log_approved_actor_only_in_request_params :
    ∀ (audit_id ts media_buy_id actor : String) (comments : Option String)
      (rows : List (List (String × SqlValue))),
      (AuditLogger.log_approved true .ok audit_id ts media_buy_id actor
          comments rows).2 =
        rows ++ [auditRowColumns audit_id none none "cem_approved" media_buy_id
          (some (.obj [("media_buy_id", .str media_buy_id),
                       ("approved_by", .str actor)]))
          (some (.obj [("comments", optJson comments),
                       ("new_status", .str "active")]))
          "success" ts] ∧
      ((auditRowColumns audit_id none none "cem_approved" media_buy_id
          (some (.obj [("media_buy_id", .str media_buy_id),
                       ("approved_by", .str actor)]))
          (some (.obj [("comments", optJson comments),
                       ("new_status", .str "active")]))
          "success" ts).lookup "performed_by") = none ∧
      ((auditRowColumns audit_id none none "cem_approved" media_buy_id
          (some (.obj [("media_buy_id", .str media_buy_id),
                       ("approved_by", .str actor)]))
          (some (.obj [("comments", optJson comments),
                       ("new_status", .str "active")]))
          "success" ts).lookup "request_params") =
        some (.json (.obj [("media_buy_id", .str media_buy_id),
                           ("approved_by", .str actor)])) ∧
      (∀ (connAvailable : Bool) (outcome : WriteOutcome) (operation : String)
         (principal_id tenant_id : Option String) (rp rd : Option Json)
         (status : String) (pb pb' : Option String),
        AuditLogger.log connAvailable outcome audit_id ts operation media_buy_id
          principal_id tenant_id rp rd status pb rows =
        AuditLogger.log connAvailable outcome audit_id ts operation media_buy_id
          principal_id tenant_id rp rd status pb' rows) :=
  fun _ _ _ _ _ _ =>
    ⟨rfl, rfl, rfl, fun _ _ _ _ _ _ _ _ _ _ => rfl⟩

/-- C8: when the datastore write raises — on the INSERT or on the commit —
AuditLogger.log catches the error, writes nothing, and returns None rather
than raising to its caller (its return type is total: the embedding of a
function that never throws). -/
theorem audit_log_write_failure_returns_none :
    ∀ (audit_id ts operation media_buy_id : String)
      (principal_id tenant_id : Option String) (rp rd : Option Json)
      (status : String) (pb : Option String)
      (rows : List (List (String × SqlValue))) (e : String),
      AuditLogger.log true (.raisedOnInsert e) audit_id ts operation media_buy_id
        principal_id tenant_id rp rd status pb rows = (none, rows) ∧
      AuditLogger.log true (.raisedOnCommit e) audit_id ts operation media_buy_id
        principal_id tenant_id rp rd status pb rows = (none, rows) :=
  fun _ _ _ _ _ _ _ _ _ _ _ _ => ⟨rfl, rfl⟩

/-- C9: in both the approve handler and the reject submission handler the
audit write comes strictly before the status update attempt in the effect
trace; running just the prefix that precedes the update already persists
the audit entry; and the two are not atomic: when the status update fails,
the already-written audit entry stays (no event removes audit entries)
while the order status is unchanged. -/
theorem audit_written_before_status_update :
    ∀ (media_buy_id user_name reason : String) (s : WorkflowState)
      (updateOk : Bool),
      (handle_cem_approve media_buy_id user_name true updateOk =
        [WorkflowEvent.auditLog "cem_approved" media_buy_id user_name
            "Approved via Slack" true] ++
        [WorkflowEvent.statusUpdate media_buy_id "active" updateOk] ++
        [WorkflowEvent.cardRender media_buy_id
            ("Order " ++ media_buy_id ++ " approved")]) ∧
      ((runEvents s [WorkflowEvent.auditLog "cem_approved" media_buy_id
          user_name "Approved via Slack" true]).audit_entries =
        s.audit_entries ++ [("cem_approved", media_buy_id, user_name)]) ∧
      ((runEvents s (handle_cem_approve media_buy_id user_name true
          false)).audit_entries =
        s.audit_entries ++ [("cem_approved", media_buy_id, user_name)]) ∧
      ((runEvents s (handle_cem_approve media_buy_id user_name true
          false)).order_status = s.order_status) ∧
      ((runEvents s (handle_cem_approve media_buy_id user_name true
          true)).order_status = "active") ∧
      (handle_cem_reject_submit media_buy_id user_name reason true updateOk =
        [WorkflowEvent.auditLog "cem_rejected" media_buy_id user_name reason
            true] ++
        [WorkflowEvent.statusUpdate media_buy_id "rejected" updateOk] ++
        [WorkflowEvent.cardRender media_buy_id
            ("Order " ++ media_buy_id ++ " rejected")]) ∧
      ((runEvents s [WorkflowEvent.auditLog "cem_rejected" media_buy_id
          user_name reason true]).audit_entries =
        s.audit_entries ++ [("cem_rejected", media_buy_id, user_name)]) ∧
      ((runEvents s (handle_cem_reject_submit media_buy_id user_name reason
          true false)).audit_entries =
        s.audit_entries ++ [("cem_rejected", media_buy_id, user_name)]) ∧
      ((runEvents s (handle_cem_reject_submit media_buy_id user_name reason
          true false)).order_status = s.order_status) :=
  fun _ _ _ _ _ => ⟨rfl, rfl, rfl, rfl, rfl, rfl, rfl, rfl, rfl⟩

/-- From a successful buildPackage result, the estimated_impressions field
obeys the CPM guard: the truncated division only when the CPM is strictly
positive, and 0 otherwise. -/
theorem buildPackage_impressions (pkg : PackageRow) (pr : Option ProductRow)
    (pd : PackageDetails) (h : buildPackage pkg pr = .ok pd) :
    pd.estimated_impressions =
      (if pd.cpm > 0 then pyTrunc (pd.budget / (pd.cpm / 1000)) else 0) := by
  unfold buildPackage at h
  cases pr with
  | none =>
    simp only [bind, Except.bind, getCpm, Except.ok.injEq] at h
    subst h
    rfl
  | some w =>
    dsimp only at h
    cases hc : getCpm w.pricing with
    | error e =>
      rw [hc] at h
      simp only [bind, Except.bind] at h
      exact Except.noConfusion h
    | ok c =>
      rw [hc] at h
      simp only [bind, Except.bind, Except.ok.injEq] at h
      subst h
      rfl

/-- Every element of a successful buildPackages run is the buildPackage
image of one of the source rows. -/
theorem buildPackages_mem (db : Database) :
    ∀ (l : List PackageRow) (out : List PackageDetails),
      buildPackages db l = .ok out → ∀ pd ∈ out,
        ∃ w ∈ l, buildPackage w (lookupProduct db w.product_id) = .ok pd := by
  intro l
  induction l with
  | nil =>
    intro out h pd hpd
    simp only [buildPackages, Except.ok.injEq] at h
    subst h
    cases hpd
  | cons w rest ih =>
    intro out h pd hpd
    unfold buildPackages at h
    cases h1 : buildPackage w (lookupProduct db w.product_id) with
    | error e =>
      rw [h1] at h
      simp only [bind, Except.bind] at h
      exact Except.noConfusion h
    | ok d =>
      rw [h1] at h
      cases h2 : buildPackages db rest with
      | error e =>
        rw [h2] at h
        simp only [bind, Except.bind] at h
        exact Except.noConfusion h
      | ok ds =>
        rw [h2] at h
        simp only [bind, Except.bind, Except.ok.injEq] at h
        subst h
        rcases List.mem_cons.mp hpd with hpd | hpd
        · exact ⟨w, List.mem_cons_self w rest, by rw [h1, hpd]⟩
        · obtain ⟨v, hv, hb⟩ := ih ds h2 pd hpd
          exact ⟨v, List.mem_cons_of_mem w hv, hb⟩

/-- C10: every package of a successful get_order_details result has its
estimated_impressions computed under the CPM guard — the division
budget / (cpm / 1000) is taken only when cpm is strictly positive and the
field is 0 otherwise — and a missing pricing yields CPM 0 (getCpm of None
succeeds with 0), so the impressions computation never divides by zero. -/
theorem get_order_details_impressions_guard :
    (∀ (db : Database) (media_buy_id : String) (details : OrderDetails),
      get_order_details db media_buy_id = some details →
      ∀ pd ∈ details.packages,
        pd.estimated_impressions =
          (if pd.cpm > 0 then pyTrunc (pd.budget / (pd.cpm / 1000)) else 0)) ∧
    getCpm none = .ok 0 := by
  refine ⟨?_, rfl⟩
  intro db id details h pd hpd
  unfold get_order_details at h
  split at h
  · exact Option.noConfusion h
  · dsimp only at h
    split at h
    · exact Option.noConfusion h
    · rename_i packages h1
      simp only [Option.some.injEq] at h
      subst h
      obtain ⟨w, _, hb⟩ := buildPackages_mem db _ packages h1 pd (by simpa using hpd)
      exact buildPackage_impressions w _ pd hb

/-- C10 witness: the theorem applied to the concrete datastore dbC10, whose
no-pricing package yields CPM 0 and 0 estimated impressions. -/
theorem get_order_details_impressions_guard_witness :
    get_order_details dbC10 "MB-X" = some detailsC10 ∧
    pdNoPricing ∈ detailsC10.packages ∧
    pdNoPricing.estimated_impressions =
      (if pdNoPricing.cpm > 0 then
        pyTrunc (pdNoPricing.budget / (pdNoPricing.cpm / 1000)) else 0) ∧
    pdNoPricing.estimated_impressions = 0 :=
  ⟨rfl, List.mem_cons_self _ _,
    get_order_details_impressions_guard.1 dbC10 "MB-X" detailsC10 rfl
      pdNoPricing (List.mem_cons_self _ _),
    rfl⟩
